import Mathlib

/-!
Shallow embedding of the roadmap-normalisation core of `src/app.py`
(the body of `career_map_page` from the point where the raw model
response text is post-processed, lines 111-191), together with the
skill-career graph builder that the specification describes.

Python values produced by `json.loads` are modelled by `JVal`
(JSON numbers are modelled as integers; floating-point payloads are
outside the model).  Python operations that can raise `AttributeError`
or `TypeError` (such as calling `.get` on a non-dict or iterating a
number) are modelled in the `Except Unit` monad.
-/

/-- A parsed JSON value, as produced by Python's `json.loads`.
Python dicts preserve insertion order, so objects are association
lists; `json.loads` resolves duplicate keys by overwriting in place
(see `upsertKey`). -/
inductive JVal : Type where
  | null : JVal
  | bool : Bool → JVal
  | num : Int → JVal
  | str : String → JVal
  | arr : List JVal → JVal
  | obj : List (String × JVal) → JVal

/-- Association-list lookup, first match wins (Python dict lookup;
the parser keeps keys unique via `upsertKey`). -/
def jlookup : List (String × JVal) → String → Option JVal
  | [], _ => none
  | (k, v) :: rest, key => if k = key then some v else jlookup rest key

/-- Insert a key into an ordered association list the way a Python
dict does: overwrite in place if the key exists, else append. -/
def upsertKey : List (String × JVal) → String → JVal → List (String × JVal)
  | [], k, v => [(k, v)]
  | (k0, v0) :: rest, k, v =>
      if k0 = k then (k0, v) :: rest else (k0, v0) :: upsertKey rest k v

/-- Python truthiness of a JSON-derived value (`bool(x)`). -/
def truthy : JVal → Bool
  | .null => false
  | .bool b => b
  | .num n => n != 0
  | .str s => s != ""
  | .arr xs => !xs.isEmpty
  | .obj kvs => !kvs.isEmpty

/-- Python `x or y` on JSON-derived values: the first truthy operand. -/
def pyOr (x y : JVal) : JVal := if truthy x then x else y

/-- Python `d.get(k, default)`: raises `AttributeError` when `d` is not
a dict. -/
def pyGetD (v : JVal) (k : String) (d : JVal) : Except Unit JVal :=
  match v with
  | .obj kvs => .ok ((jlookup kvs k).getD d)
  | _ => .error ()

/-- Python `d.get(k)` (default `None`). -/
def pyGet (v : JVal) (k : String) : Except Unit JVal := pyGetD v k .null

/-- Python iteration over a JSON-derived value: lists yield their
elements, strings yield their characters as 1-character strings,
dicts yield their keys; other values raise `TypeError`. -/
def pyIter : JVal → Except Unit (List JVal)
  | .arr xs => .ok xs
  | .str s => .ok (s.data.map fun c => .str (String.mk [c]))
  | .obj kvs => .ok (kvs.map fun kv => .str kv.1)
  | _ => .error ()

/-- Python `d.items()`: raises unless `d` is a dict. -/
def pyItems : JVal → Except Unit (List (String × JVal))
  | .obj kvs => .ok kvs
  | _ => .error ()

/-- Python `repr` of a JSON-derived value, fuel-compiled recursion
(string escaping inside `repr` is not modelled). -/
def pyReprF : Nat → JVal → String
  | _, .null => "None"
  | _, .bool true => "True"
  | _, .bool false => "False"
  | _, .num n => toString n
  | _, .str s => "\x27" ++ s ++ "\x27"
  | fuel + 1, .arr xs => "[" ++ String.intercalate ", " (xs.map (pyReprF fuel)) ++ "]"
  | fuel + 1, .obj kvs =>
      "\x7b" ++
        String.intercalate ", "
          (kvs.map fun kv => "\x27" ++ kv.1 ++ "\x27: " ++ pyReprF fuel kv.2) ++
      "\x7d"
  | 0, .arr _ => ""
  | 0, .obj _ => ""

mutual

/-- Size of a JSON value; strictly bounds its nesting depth. -/
def jsize : JVal → Nat
  | .arr xs => jsizeList xs + 1
  | .obj kvs => jsizeObj kvs + 1
  | _ => 1

/-- Size of a list of JSON values. -/
def jsizeList : List JVal → Nat
  | [] => 0
  | v :: vs => jsize v + jsizeList vs + 1

/-- Size of a JSON object body. -/
def jsizeObj : List (String × JVal) → Nat
  | [] => 0
  | (_, v) :: kvs => jsize v + jsizeObj kvs + 1

end

/-- Python `repr` of a JSON-derived value, as used by `str()` on
containers.  `jsize v` strictly bounds the nesting depth of `v`,
so the fuel never runs out. -/
def pyRepr (v : JVal) : String := pyReprF (jsize v) v

/-- Python `str` of a JSON-derived value (`str()` / f-string
interpolation): identity on strings, `repr`-like otherwise. -/
def pyStr : JVal → String
  | .str s => s
  | v => pyRepr v

/-- Python `s.lower()` (ASCII case folding). -/
def pyLower (s : String) : String := String.mk (s.data.map Char.toLower)

/-- Python `s.capitalize()`: first character upper-cased, all
remaining characters lower-cased. -/
def pyCapitalize (s : String) : String :=
  match s.data with
  | [] => ""
  | c :: cs => String.mk (c.toUpper :: cs.map Char.toLower)

/-! ### Text cleaning (`app.py` lines 111-114)

`response_text.strip()` followed by the two `re.sub` fence removals.
-/

/-- The backtick character. -/
def backtick : Char := Char.ofNat 96

/-- Python `str.strip()` whitespace set. -/
def isPyWs (c : Char) : Bool :=
  c = ' ' || c = '\t' || c = '\n' || c = '\r' || c = '\x0b' || c = '\x0c'

/-- Python `str.strip()` on the character list. -/
def pyStripL (cs : List Char) : List Char :=
  ((cs.dropWhile isPyWs).reverse.dropWhile isPyWs).reverse

/-- `re.sub(r"^```(?:json)?", "", text, flags=re.IGNORECASE)`: the
anchored pattern matches at most once, at the start of the string,
consuming three backticks and, greedily, a case-insensitive `json`. -/
def stripLeadingFenceL (cs : List Char) : List Char :=
  match cs with
  | c1 :: c2 :: c3 :: rest =>
      if c1 = backtick && c2 = backtick && c3 = backtick then
        match rest with
        | d1 :: d2 :: d3 :: d4 :: rest2 =>
            if d1.toLower = 'j' && d2.toLower = 's' && d3.toLower = 'o' && d4.toLower = 'n' then
              rest2
            else rest
        | _ => rest
      else cs
  | _ => cs

/-- `re.sub(r"```$", "", text)`: without `re.MULTILINE`, `$` matches
at the end of the string or just before a final newline, so the
pattern matches at most once. -/
def stripTrailingFenceL (cs : List Char) : List Char :=
  match cs.reverse with
  | c1 :: c2 :: c3 :: rest =>
      if c1 = backtick && c2 = backtick && c3 = backtick then rest.reverse
      else
        match c2 :: c3 :: rest with
        | c2' :: c3' :: c4' :: rest2 =>
            if c1 = '\n' && c2' = backtick && c3' = backtick && c4' = backtick then
              rest2.reverse ++ ['\n']
            else cs
        | _ => cs
  | _ => cs

/-- Lines 111-114 of `app.py`: strip surrounding whitespace, then
remove a leading and a trailing markdown code fence. -/
def cleanText (s : String) : String :=
  String.mk (stripTrailingFenceL (stripLeadingFenceL (pyStripL s.data)))

/-! ### `json.loads` (`app.py` line 120)

A recursive-descent JSON reader modelling Python's `json.loads`.
Restrictions of the model: numbers are integers (no fraction or
exponent part, and no `NaN`/`Infinity` extensions), and a `\uXXXX`
escape denotes the code point `XXXX` without surrogate pairing.
-/

/-- The left-brace character. -/
def lbrace : Char := Char.ofNat 123

/-- The right-brace character. -/
def rbrace : Char := Char.ofNat 125

/-- Skip JSON whitespace. -/
def skipWs : List Char → List Char
  | c :: cs => if c = ' ' || c = '\t' || c = '\n' || c = '\r' then skipWs cs else c :: cs
  | [] => []

/-- Longest digit run at the front of the input. -/
def takeDigits : List Char → List Char × List Char
  | [] => ([], [])
  | c :: cs =>
      if c.isDigit then
        let (d, r) := takeDigits cs
        (c :: d, r)
      else ([], c :: cs)

/-- Value of a digit run. -/
def digitsToNat (ds : List Char) : Nat :=
  ds.foldl (fun acc c => 10 * acc + (c.toNat - 48)) 0

/-- Value of a hex digit, if any. -/
def hexVal (c : Char) : Option Nat :=
  if c.isDigit then some (c.toNat - 48)
  else if 'a' ≤ c && c ≤ 'f' then some (c.toNat - 87)
  else if 'A' ≤ c && c ≤ 'F' then some (c.toNat - 70)
  else none

/-- Parse a JSON number token (integer grammar: optional minus, then
`0` or a nonzero-led digit run; fraction and exponent parts are
outside the model). -/
def parseNum (cs : List Char) : Option (JVal × List Char) :=
  match cs with
  | c :: rest =>
      if c = '-' then
        match takeDigits rest with
        | ([], _) => none
        | (ds, r) =>
            if ds.length > 1 && ds.headD '0' = '0' then none
            else some (.num (-(digitsToNat ds : Int)), r)
      else
        match takeDigits (c :: rest) with
        | ([], _) => none
        | (ds, r) =>
            if ds.length > 1 && ds.headD '0' = '0' then none
            else some (.num (digitsToNat ds), r)
  | [] => none

/-- Parse the body of a JSON string, after the opening quote; returns
the decoded characters and the input past the closing quote.  Python's
strict mode rejects unescaped control characters. -/
def parseStrChars (fuel : Nat) (cs : List Char) : Option (List Char × List Char) :=
  match fuel, cs with
  | 0, _ => none
  | _, [] => none
  | fuel + 1, c :: cs =>
      if c = '"' then some ([], cs)
      else if c = '\\' then
        match cs with
        | [] => none
        | e :: cs2 =>
            if e = 'u' then
              match cs2 with
              | h1 :: h2 :: h3 :: h4 :: cs3 =>
                  match hexVal h1, hexVal h2, hexVal h3, hexVal h4 with
                  | some a, some b, some c', some d =>
                      (parseStrChars fuel cs3).map fun (s, r) =>
                        (Char.ofNat (((a * 16 + b) * 16 + c') * 16 + d) :: s, r)
                  | _, _, _, _ => none
              | _ => none
            else
              (if e = '"' then some '"'
               else if e = '\\' then some '\\'
               else if e = '/' then some '/'
               else if e = 'b' then some '\x08'
               else if e = 'f' then some '\x0c'
               else if e = 'n' then some '\n'
               else if e = 'r' then some '\r'
               else if e = 't' then some '\t'
               else none).bind fun d =>
                (parseStrChars fuel cs2).map fun (s, r) => (d :: s, r)
      else if c.toNat < 32 then none
      else (parseStrChars fuel cs).map fun (s, r) => (c :: s, r)

mutual

/-- Parse one JSON value, leading whitespace allowed. -/
def parseVal : Nat → List Char → Option (JVal × List Char)
  | 0, _ => none
  | fuel + 1, cs =>
      match skipWs cs with
      | 't' :: 'r' :: 'u' :: 'e' :: rest => some (.bool true, rest)
      | 'f' :: 'a' :: 'l' :: 's' :: 'e' :: rest => some (.bool false, rest)
      | 'n' :: 'u' :: 'l' :: 'l' :: rest => some (.null, rest)
      | '"' :: rest =>
          (parseStrChars (rest.length + 1) rest).map fun (s, r) => (.str (String.mk s), r)
      | c :: rest =>
          if c = '[' then
            match skipWs rest with
            | c2 :: rest2 =>
                if c2 = ']' then some (.arr [], rest2)
                else parseArrItems fuel [] (c2 :: rest2)
            | [] => none
          else if c = lbrace then
            match skipWs rest with
            | c2 :: rest2 =>
                if c2 = rbrace then some (.obj [], rest2)
                else parseObjItems fuel [] (c2 :: rest2)
            | [] => none
          else parseNum (c :: rest)
      | [] => none

/-- Parse the remaining elements of a non-empty JSON array. -/
def parseArrItems : Nat → List JVal → List Char → Option (JVal × List Char)
  | 0, _, _ => none
  | fuel + 1, acc, cs =>
      match parseVal fuel cs with
      | none => none
      | some (v, rest) =>
          match skipWs rest with
          | c :: rest2 =>
              if c = ',' then parseArrItems fuel (acc ++ [v]) rest2
              else if c = ']' then some (.arr (acc ++ [v]), rest2)
              else none
          | [] => none

/-- Parse the remaining members of a non-empty JSON object. -/
def parseObjItems : Nat → List (String × JVal) → List Char → Option (JVal × List Char)
  | 0, _, _ => none
  | fuel + 1, acc, cs =>
      match skipWs cs with
      | '"' :: rest =>
          match parseStrChars (rest.length + 1) rest with
          | none => none
          | some (k, rest2) =>
              match skipWs rest2 with
              | ':' :: rest3 =>
                  match parseVal fuel rest3 with
                  | none => none
                  | some (v, rest4) =>
                      let acc2 := upsertKey acc (String.mk k) v
                      match skipWs rest4 with
                      | c :: rest5 =>
                          if c = ',' then parseObjItems fuel acc2 rest5
                          else if c = rbrace then some (.obj acc2, rest5)
                          else none
                      | [] => none
              | _ => none
      | _ => none

end

/-- Python `json.loads`: parse one JSON document, rejecting leftover
non-whitespace input.  The fuel `2 * length + 8` strictly exceeds the
recursion depth, which consumes at least one character every two
nested calls. -/
def jsonLoads (s : String) : Option JVal :=
  match parseVal (2 * s.length + 8) s.data with
  | some (v, rest) => if skipWs rest = [] then some v else none
  | none => none

/-! ### The normaliser (`app.py` lines 116-191)

The rendered page is modelled as plain data: each `st.*` call that
displays a piece of the roadmap contributes an entry.  Python
operations that raise (`.get` on a non-dict, iterating a number,
`str.join` over non-strings) surface as `Except.error ()` and are
mapped to `NormError.pyError` at the top level, modelling the uncaught
exception that crashes the page.
-/

instance : Repr JVal := ⟨fun v _ => Std.Format.text (pyRepr v)⟩

/-- One row of the "Skills to Learn" table (lines 140-144): the raw
`skill` value, the capitalised priority label, and the raw `reason`
value. -/
structure SkillRow where
  skill : JVal
  priority : String
  reason : JVal
  deriving Repr

/-- The three shapes of the "Skills to Learn" section
(lines 135-158). -/
inductive SkillsDisplay where
  | table : List SkillRow → SkillsDisplay
  | flat : String → SkillsDisplay
  | noData : SkillsDisplay
  deriving Repr

/-- Everything `career_map_page` renders from the parsed response:
psychometric question/answer lines, the skills section, the retained
career (title, description) pairs, the numbered retained project
entries, and the numbered tips. -/
structure Page where
  psychometric : List (String × String)
  skills : SkillsDisplay
  careers : List (JVal × JVal)
  projects : List (Nat × JVal × JVal)
  tips : List (Nat × String)
  deriving Repr

/-- How normalisation fails (`app.py` lines 116-123 and uncaught
exceptions): `invalidResponse` is the fixed message of line 117
(which does not carry the offending text), `parseFailure` is line 122
(which does), `pyError` is an uncaught `AttributeError`/`TypeError`
from the shape-dependent accesses of lines 125-191. -/
inductive NormError where
  | invalidResponse : NormError
  | parseFailure : String → NormError
  | pyError : NormError
  deriving Repr

/-- Line 125: `roadmap = career_data.get('careerRoadmap') or \x7b\x7d`. -/
def roadmapRootOf (career_data : JVal) : Except Unit JVal := do
  let v ← pyGet career_data "careerRoadmap"
  return pyOr v (.obj [])

/-- Lines 128-130: the psychometric answers echoed back, rendered as
question/answer pairs with f-string (`str`) formatting of the answer. -/
def psychometricOf (career_data : JVal) : Except Unit (List (String × String)) := do
  let sp ← pyGetD career_data "studentProfile" (.obj [])
  let pa ← pyGetD sp "psychometricAnswers" (.obj [])
  let items ← pyItems pa
  return items.map fun qa => (qa.1, pyStr qa.2)

/-- Lines 139-144: an entry of a priority tier contributes a table row
only when it is a dict; the row takes `skill` and `reason` with
default `""` and labels the row with `priority.capitalize()`. -/
def tierRow (priority : String) (skill_item : JVal) : Option SkillRow :=
  match skill_item with
  | .obj kvs =>
      some ⟨(jlookup kvs "skill").getD (.str ""),
            pyCapitalize priority,
            (jlookup kvs "reason").getD (.str "")⟩
  | _ => none

/-- Lines 137-144: one tier of the dict-shaped skills section:
`skills_to_learn.get(priority) or []`, iterated, keeping dict rows. -/
def tierRows (skills_to_learn : JVal) (priority : String) : Except Unit (List SkillRow) := do
  let v ← pyGet skills_to_learn priority
  let items ← pyIter (pyOr v (.arr []))
  return items.filterMap (tierRow priority)

/-- Lines 148-155: `flatten_skills_for_display`: a dict entry becomes
`s.get('skill') or s.get('name') or str(s)`, any other entry becomes
`str(s)`. -/
def flatten_skills_for_display (skill_list : List JVal) : List JVal :=
  skill_list.map fun s =>
    match s with
    | .obj kvs =>
        pyOr ((jlookup kvs "skill").getD .null)
          (pyOr ((jlookup kvs "name").getD .null) (.str (pyStr s)))
    | _ => .str (pyStr s)

/-- Python `", ".join(xs)`: raises `TypeError` when an element is not
a string. -/
def strJoin (sep : String) (xs : List JVal) : Except Unit String := do
  let parts ← xs.mapM fun v =>
    match v with
    | .str s => Except.ok s
    | _ => Except.error ()
  return String.intercalate sep parts

/-- Lines 133-158: the "Skills to Learn" section.  The resolved value
(`roadmap.get('skillsToLearn') or \x7b\x7d`) is rendered as a table when
it is a dict, as a joined line when it is a list, and as a fixed
message otherwise. -/
def skillsOf (roadmap : JVal) : Except Unit SkillsDisplay := do
  let v ← pyGet roadmap "skillsToLearn"
  let skills_to_learn := pyOr v (.obj [])
  match skills_to_learn with
  | .obj _ => do
      let hi ← tierRows skills_to_learn "highPriority"
      let med ← tierRows skills_to_learn "mediumPriority"
      let lo ← tierRows skills_to_learn "lowPriority"
      return .table (hi ++ med ++ lo)
  | .arr xs => do
      let line ← strJoin ", " (flatten_skills_for_display xs)
      return .flat line
  | _ => return .noData

/-- Lines 164-169: coerce one career entry to a (title, description)
pair: a dict resolves `title` then `path` and keeps `description`
(default `""`); anything else is stringified with empty description. -/
def coerceCareer (career : JVal) : JVal × JVal :=
  match career with
  | .obj kvs =>
      (pyOr ((jlookup kvs "title").getD .null) ((jlookup kvs "path").getD .null),
       (jlookup kvs "description").getD (.str ""))
  | _ => (.str (pyStr career), .str "")

/-- Line 170 / line 183: the filter `if title and str(title).lower() != "none"`. -/
def keepTitle (title : JVal) : Bool :=
  truthy title && pyLower (pyStr title) != "none"

/-- The retained (title, description) pairs of a career entry list
(the loop of lines 163-171). -/
def careerList (entries : List JVal) : List (JVal × JVal) :=
  (entries.map coerceCareer).filter fun p => keepTitle p.1

/-- Lines 162-171: the "Recommended Career Paths" section. -/
def careersOf (roadmap : JVal) : Except Unit (List (JVal × JVal)) := do
  let v ← pyGet roadmap "recommendedCareerPaths"
  let entries ← pyIter (pyOr v (.arr []))
  return careerList entries

/-- Lines 177-182: coerce one project entry: a dict resolves `title`
then `project` and keeps `description` (default `""`); anything else
is stringified. -/
def coerceProject (proj : JVal) : JVal × JVal :=
  match proj with
  | .obj kvs =>
      (pyOr ((jlookup kvs "title").getD .null) ((jlookup kvs "project").getD .null),
       (jlookup kvs "description").getD (.str ""))
  | _ => (.str (pyStr proj), .str "")

/-- The numbered retained project entries (the loop of lines 176-185);
the displayed number `i+1` comes from `enumerate` over the whole list,
so dropped entries leave gaps. -/
def projectList (entries : List JVal) : List (Nat × JVal × JVal) :=
  (entries.enum.map fun ip => (ip.1 + 1, coerceProject ip.2)).filter fun p => keepTitle p.2.1

/-- Lines 175-185: the "Suggested Micro-Projects" section. -/
def projectsOf (roadmap : JVal) : Except Unit (List (Nat × JVal × JVal)) := do
  let v ← pyGet roadmap "suggestedMicroProjects"
  let entries ← pyIter (pyOr v (.arr []))
  return projectList entries

/-- Lines 189-191: the numbered internship tips, written as
`f"\x7bi+1\x7d. \x7btip\x7d"`; modelled as the (number, text) pair. -/
def tipsOf (roadmap : JVal) : Except Unit (List (Nat × String)) := do
  let v ← pyGet roadmap "tipsForInternshipsOrHandsOnExperience"
  let tips ← pyIter (pyOr v (.arr []))
  return tips.enum.map fun it => (it.1 + 1, pyStr it.2)

/-- Lines 125-191: everything rendered from the parsed response, in
source order (the first raising access wins). -/
def normalizeData (career_data : JVal) : Except Unit Page := do
  let roadmap ← roadmapRootOf career_data
  let psych ← psychometricOf career_data
  let skills ← skillsOf roadmap
  let careers ← careersOf roadmap
  let projects ← projectsOf roadmap
  let tips ← tipsOf roadmap
  return ⟨psych, skills, careers, projects, tips⟩

/-- The disallowed sentinel tokens of line 116. -/
def sentinels : List String := ["none", "null", "undefined"]

/-- Lines 116-191: the pipeline from the cleaned text onwards: the
empty/sentinel check, `json.loads`, and the shape-dependent
rendering. -/
def parseStage (t : String) : Except NormError Page :=
  if t = "" ∨ pyLower t ∈ sentinels then .error .invalidResponse
  else
    match jsonLoads t with
    | none => .error (.parseFailure t)
    | some v => (normalizeData v).mapError fun _ => .pyError

/-- Lines 111-191 of `app.py`: the full normalisation path of
`career_map_page`, from the raw response text to the rendered page. -/
def career_map_page (raw : String) : Except NormError Page :=
  parseStage (cleanText raw)

/-- The page rendered from an empty roadmap. -/
def emptyPage : Page := ⟨[], .table [], [], [], []⟩

/-! ### The roadmap-root rule as the specification words it (claim C3) -/

/-- The root-location rule exactly as claim C3 states it (not as the
code implements it): try key `careerRoadmap`, then, if that key is
absent, key `roadmap`, and if both are absent use the whole parsed
object itself; to be compared with `roadmapRootOf`. -/
def rootSpecClaim (career_data : JVal) : Except Unit JVal :=
  match career_data with
  | .obj kvs =>
      .ok (((jlookup kvs "careerRoadmap").orElse fun _ => jlookup kvs "roadmap").getD (.obj kvs))
  | _ => .error ()

/-- The root-location rule the code actually implements, worded as the
amended claim: the value of `careerRoadmap` when that value is truthy,
otherwise the empty object; the key `roadmap` is never consulted and
there is no whole-object fallback.  To be compared with
`roadmapRootOf`. -/
def rootSpecAmended (career_data : JVal) : Except Unit JVal :=
  match career_data with
  | .obj kvs =>
      .ok (match jlookup kvs "careerRoadmap" with
           | some v => if truthy v then v else .obj []
           | none => .obj [])
  | _ => .error ()

/-! ### The Skill-Career Graph Builder (specification §4.2) -/

/-- The category of a graph node. -/
inductive NodeKind where
  | skill : NodeKind
  | career : NodeKind
  deriving DecidableEq, Repr

/-- A skill→career graph: nodes tagged with their kind, and directed
edges. -/
structure SCGraph where
  nodes : List (String × NodeKind)
  edges : List (String × String)
  deriving DecidableEq, Repr

/-- Modelled from the spec: the Skill-Career Graph Builder (§4.2,
steps 1-4) has no implementation under `src/`; `app.py` contains no
graph construction.  Following the spec's words: the node set is one
node per distinct name in the union of the flat skill set and the
career set, tagged `skill` unless the name also appears in the career
set (the career assignment overrides); the edge set is the full
bipartite product, one directed edge skill→career for every skill in
the deduplicated skill set and every career in the deduplicated
career set.  (The layout of steps 5-6 is numeric rendering and is not
modelled.) -/
def buildGraph (skills careers : List String) : SCGraph :=
  { nodes := (skills ++ careers).dedup.map fun n =>
      (n, if n ∈ careers then NodeKind.career else NodeKind.skill)
    edges := skills.dedup.product careers.dedup }

/-! ### Claims -/

/-- **C1, counterexample.**  The claim "for every successfully parsed
JSON input, no wrong nesting ever causes a failure" is false: the
input `"5"` parses as the JSON number 5, yet the page fails with an
uncaught `AttributeError` (line 125 calls `.get` on the parsed value).
Moreover, on the sentinel input `"NULL"` the failure is the fixed
message of line 117, which does not attach the offending raw text. -/
theorem claim_C1_cex :
    jsonLoads "5" = some (.num 5)
    ∧ career_map_page "5" = .error .pyError
    ∧ career_map_page "NULL" = .error .invalidResponse :=
  ⟨rfl, rfl, rfl⟩

/-- **C1 (amended).**  The Normalizer fails with the invalid-payload
error exactly when the cleaned input is empty or a case-insensitive
sentinel, and with the parse-failure error (which attaches the
offending cleaned text) exactly when the cleaned input passes the
sentinel check but fails JSON parsing; any other failure is an
uncaught type error arising from wrong nesting, which — contrary to
the original claim — a successfully parsed input can still produce. -/
theorem claim_C1 (raw : String) :
    (career_map_page raw = .error .invalidResponse ↔
      (cleanText raw = "" ∨ pyLower (cleanText raw) ∈ sentinels))
    ∧ (career_map_page raw = .error (.parseFailure (cleanText raw)) ↔
      (¬(cleanText raw = "" ∨ pyLower (cleanText raw) ∈ sentinels) ∧
        jsonLoads (cleanText raw) = none))
    ∧ (∀ u, career_map_page raw = .error (.parseFailure u) → u = cleanText raw) := by
  unfold career_map_page parseStage
  by_cases h : (cleanText raw = "" ∨ pyLower (cleanText raw) ∈ sentinels)
  · simp [h]
  · cases hj : jsonLoads (cleanText raw) with
    | none => simp [h, hj]
    | some v =>
        cases hn : normalizeData v with
        | ok p => simp [h, hj, hn, Except.mapError]
        | error e => simp [h, hj, hn, Except.mapError]

/-- **C1, witness.** -/
theorem claim_C1_witness :
    career_map_page "not json" = .error (.parseFailure "not json") :=
  ((claim_C1 "not json").2.1).mpr ⟨by decide, rfl⟩

/-- **C7.**  Normalizing the empty JSON object succeeds with every
collection empty and an empty psychometric-answers mapping. -/
theorem claim_C7 : career_map_page "\x7b\x7d" = .ok emptyPage := rfl

/-- **C10.**  In the tiered skills section the priority label is the
raw key with only its first letter capitalised — `Highpriority`,
`Mediumpriority`, `Lowpriority` — and a dict entry lacking the
`skill` key still contributes a row whose skill name is the empty
string. -/
theorem claim_C10 :
    pyCapitalize "highPriority" = "Highpriority"
    ∧ pyCapitalize "mediumPriority" = "Mediumpriority"
    ∧ pyCapitalize "lowPriority" = "Lowpriority"
    ∧ skillsOf (.obj [("skillsToLearn", .obj
        [("highPriority", .arr [.obj [("skill", .str "A")]]),
         ("mediumPriority", .arr [.obj [("skill", .str "B")]]),
         ("lowPriority", .arr [.obj [("skill", .str "C")]])])])
      = .ok (.table [⟨.str "A", "Highpriority", .str ""⟩,
                     ⟨.str "B", "Mediumpriority", .str ""⟩,
                     ⟨.str "C", "Lowpriority", .str ""⟩])
    ∧ skillsOf (.obj [("skillsToLearn", .obj
        [("highPriority", .arr [.obj [("foo", .str "x")]])])])
      = .ok (.table [⟨.str "", "Highpriority", .str ""⟩]) :=
  ⟨rfl, rfl, rfl, rfl, rfl⟩

/-- **C2, counterexample.**  Alias-invariance fails: the same career
list under `recommendedCareerPaths` versus `recommended_career_paths`
yields different `Roadmap` values — the snake_case spelling is not
recognised and the careers section defaults to empty. -/
theorem claim_C2_cex :
    career_map_page
        "\x7b\"careerRoadmap\": \x7b\"recommendedCareerPaths\": [\"Data Analyst\"]\x7d\x7d"
      = .ok ⟨[], .table [], [(.str "Data Analyst", .str "")], [], []⟩
    ∧ career_map_page
        "\x7b\"careerRoadmap\": \x7b\"recommended_career_paths\": [\"Data Analyst\"]\x7d\x7d"
      = .ok ⟨[], .table [], [], [], []⟩
    ∧ career_map_page
        "\x7b\"careerRoadmap\": \x7b\"recommendedCareerPaths\": [\"Data Analyst\"]\x7d\x7d"
      ≠ career_map_page
        "\x7b\"careerRoadmap\": \x7b\"recommended_career_paths\": [\"Data Analyst\"]\x7d\x7d" := by
  refine ⟨rfl, rfl, ?_⟩
  intro h
  rw [show career_map_page
        "\x7b\"careerRoadmap\": \x7b\"recommendedCareerPaths\": [\"Data Analyst\"]\x7d\x7d"
      = .ok ⟨[], .table [], [(.str "Data Analyst", .str "")], [], []⟩ from rfl,
      show career_map_page
        "\x7b\"careerRoadmap\": \x7b\"recommended_career_paths\": [\"Data Analyst\"]\x7d\x7d"
      = .ok ⟨[], .table [], [], [], []⟩ from rfl] at h
  simp at h

/-- **C2 (amended).**  Only the camelCase spelling of each section or
tier key is recognised; a snake_case spelling is treated as an absent
key, so the corresponding section silently defaults to empty. -/
theorem claim_C2 :
    (∀ entries : List JVal,
        careersOf (.obj [("recommended_career_paths", .arr entries)]) = .ok [])
    ∧ (∀ v : JVal, skillsOf (.obj [("skills_to_learn", v)]) = .ok (.table []))
    ∧ (∀ items : List JVal,
        skillsOf (.obj [("skillsToLearn", .obj [("high_priority", .arr items)])])
          = .ok (.table []))
    ∧ (∀ entries : List JVal,
        projectsOf (.obj [("suggested_micro_projects", .arr entries)]) = .ok [])
    ∧ (∀ entries : List JVal,
        tipsOf (.obj [("tips_for_internships_or_hands_on_experience", .arr entries)])
          = .ok [])
    ∧ (∀ v : JVal, roadmapRootOf (.obj [("career_roadmap", v)]) = .ok (.obj [])) := by
  refine ⟨fun _ => rfl, fun _ => rfl, fun _ => rfl, fun _ => rfl, fun _ => rfl, fun _ => rfl⟩

/-- **C3, counterexample.**  The code's root location disagrees with
the claimed rule at `\x7b"roadmap": \x7b"a": null\x7d\x7d`: the claim
resolves the root to the value of `roadmap`, but line 125 consults
only `careerRoadmap` and falls back to the empty object. -/
theorem claim_C3_cex :
    roadmapRootOf (.obj [("roadmap", .obj [("a", .null)])]) = .ok (.obj [])
    ∧ rootSpecClaim (.obj [("roadmap", .obj [("a", .null)])]) = .ok (.obj [("a", .null)])
    ∧ roadmapRootOf (.obj [("roadmap", .obj [("a", .null)])])
        ≠ rootSpecClaim (.obj [("roadmap", .obj [("a", .null)])]) := by
  refine ⟨rfl, rfl, ?_⟩
  intro h
  rw [show roadmapRootOf (.obj [("roadmap", .obj [("a", .null)])]) = .ok (.obj []) from rfl,
      show rootSpecClaim (.obj [("roadmap", .obj [("a", .null)])])
        = .ok (.obj [("a", .null)]) from rfl] at h
  simp at h

/-- **C3 (amended).**  For every parsed value the roadmap root is the
value of top-level key `careerRoadmap` when present and truthy, and
the empty object otherwise; on a parsed object this step never fails
(and on a non-object it raises, since `.get` is a dict method). -/
theorem claim_C3 (d : JVal) : roadmapRootOf d = rootSpecAmended d := by
  cases d with
  | obj kvs =>
      cases h : jlookup kvs "careerRoadmap" with
      | none => simp [roadmapRootOf, rootSpecAmended, pyGet, pyGetD, h, pyOr, truthy]
      | some v => simp [roadmapRootOf, rootSpecAmended, pyGet, pyGetD, h, pyOr]
  | null => rfl
  | bool b => rfl
  | num n => rfl
  | str s => rfl
  | arr xs => rfl

/-- **C4, counterexample.**  There is no whitespace trimming in the
title filter: an entry whose title `" none "` trims to the
case-insensitive literal `"none"` — which the claim says is excluded —
is in fact retained. -/
theorem claim_C4_cex :
    careersOf (.obj [("recommendedCareerPaths", .arr [.obj [("title", .str " none ")]])])
      = .ok [(.str " none ", .str "")]
    ∧ String.mk (pyStripL " none ".data) = "none" :=
  ⟨rfl, rfl⟩

/-- **C4 (amended).**  A CareerPath or MicroProject entry is excluded
exactly when its resolved title is falsy or equals the literal
`"none"` case-insensitively, with no trimming of surrounding
whitespace; every sibling entry whose title passes that test is
retained, and the claim's own example behaves as stated. -/
theorem claim_C4 :
    (∀ entries : List JVal,
        careersOf (.obj [("recommendedCareerPaths", .arr entries)])
          = .ok (careerList entries))
    ∧ (∀ entries : List JVal, ∀ p ∈ careerList entries,
        truthy p.1 = true ∧ pyLower (pyStr p.1) ≠ "none")
    ∧ (∀ entries : List JVal, ∀ e ∈ entries,
        keepTitle (coerceCareer e).1 = true → coerceCareer e ∈ careerList entries)
    ∧ careersOf (.obj [("recommendedCareerPaths",
        .arr [.obj [("title", .str "None")],
              .obj [("title", .str "Data Analyst"), ("description", .str "x")]])])
      = .ok [(.str "Data Analyst", .str "x")]
    ∧ (∀ entries : List JVal,
        projectsOf (.obj [("suggestedMicroProjects", .arr entries)])
          = .ok (projectList entries))
    ∧ (∀ entries : List JVal, ∀ ip ∈ projectList entries,
        truthy ip.2.1 = true ∧ pyLower (pyStr ip.2.1) ≠ "none") := by
  refine ⟨?_, ?_, ?_, rfl, ?_, ?_⟩
  · intro entries
    cases entries with
    | nil => rfl
    | cons a l => rfl
  · intro entries p hp
    have h := (List.mem_filter.mp hp).2
    simp [keepTitle] at h
    exact h
  · intro entries e he hk
    exact List.mem_filter.mpr ⟨List.mem_map_of_mem _ he, hk⟩
  · intro entries
    cases entries with
    | nil => rfl
    | cons a l => rfl
  · intro entries ip hip
    have h := (List.mem_filter.mp hip).2
    simp [keepTitle] at h
    exact h

/-- **C4, witness.** -/
theorem claim_C4_witness :
    coerceCareer (.str "Data Analyst")
      ∈ careerList [.obj [("title", .str "None")], .str "Data Analyst"] :=
  claim_C4.2.2.1 _ (.str "Data Analyst") (by simp) rfl

/-- **C5, counterexample.**  In a priority tier the alias list
`skill`/`name` is not used and scalars are not stringified: the tier
entry `\x7b"name": "SQL"\x7d` yields a row whose skill name is the empty
string rather than `SQL`, and the bare scalar `"Python"` contributes
no row at all. -/
theorem claim_C5_cex :
    skillsOf (.obj [("skillsToLearn", .obj
        [("highPriority", .arr [.obj [("name", .str "SQL")], .str "Python"])])])
      = .ok (.table [⟨.str "", "Highpriority", .str ""⟩])
    ∧ (SkillRow.mk (.str "") "Highpriority" (.str "")).skill ≠ .str "SQL" := by
  refine ⟨rfl, ?_⟩
  intro h
  simp at h

/-- **C5 (amended).**  In the tiered (dict-shaped) skills section only
object entries contribute rows, the name is taken from the `skill` key
alone (missing key: empty string) with `reason` kept as the rationale,
and scalar entries are dropped; the `skill`/`name`/stringify alias
chain applies only in the flat (list-shaped) branch, which keeps no
rationale.  The claim's own examples behave as stated there:
`\x7b"skill":"SQL","reason":"widely used"\x7d` in a tier yields the
named row with its rationale, and the bare string `"SQL"` in the flat
branch yields the name `SQL`. -/
theorem claim_C5 :
    (∀ s r : String,
        tierRow "highPriority" (.obj [("skill", .str s), ("reason", .str r)])
          = some ⟨.str s, "Highpriority", .str r⟩)
    ∧ (∀ p s : String, tierRow p (.str s) = none)
    ∧ (∀ items : List JVal,
        tierRows (.obj [("highPriority", .arr items)]) "highPriority"
          = .ok (items.filterMap (tierRow "highPriority")))
    ∧ (∀ s : String, flatten_skills_for_display [.str s] = [.str s])
    ∧ (∀ s r : String, s ≠ "" →
        flatten_skills_for_display [.obj [("skill", .str s), ("reason", .str r)]]
          = [.str s])
    ∧ skillsOf (.obj [("skillsToLearn", .obj [("highPriority",
        .arr [.obj [("skill", .str "SQL"), ("reason", .str "widely used")]])])])
      = .ok (.table [⟨.str "SQL", "Highpriority", .str "widely used"⟩])
    ∧ skillsOf (.obj [("skillsToLearn", .arr [.str "SQL"])]) = .ok (.flat "SQL") := by
  refine ⟨fun _ _ => rfl, fun _ _ => rfl, ?_, fun _ => rfl, ?_, rfl, rfl⟩
  · intro items
    cases items with
    | nil => rfl
    | cons a l => rfl
  · intro s r hs
    simp [flatten_skills_for_display, jlookup, pyOr, truthy, hs]

/-- **C5, witness.** -/
theorem claim_C5_witness :
    flatten_skills_for_display [.obj [("skill", .str "SQL"), ("reason", .str "widely used")]]
      = [.str "SQL"] :=
  claim_C5.2.2.2.2.1 "SQL" "widely used" (by decide)

/-- **C6.**  The Graph Builder produces a complete bipartite directed
graph: an edge s→c exists exactly when s is in the (deduplicated)
skill set and c in the career set, with no duplicate edges; on skills
`SQL, Python` and career `Data Analyst` it yields exactly 3 nodes and
the 2 edges SQL→Data Analyst and Python→Data Analyst; with an empty
career set every node is a skill node and there are no edges. -/
theorem claim_C6 :
    (∀ (skills careers : List String) (s c : String),
        (s, c) ∈ (buildGraph skills careers).edges ↔ s ∈ skills ∧ c ∈ careers)
    ∧ (∀ skills careers : List String, (buildGraph skills careers).edges.Nodup)
    ∧ (buildGraph ["SQL", "Python"] ["Data Analyst"]).nodes.length = 3
    ∧ (buildGraph ["SQL", "Python"] ["Data Analyst"]).edges
        = [("SQL", "Data Analyst"), ("Python", "Data Analyst")]
    ∧ (∀ skills : List String, (buildGraph skills []).edges = [])
    ∧ (∀ skills : List String, ∀ n k, (n, k) ∈ (buildGraph skills []).nodes →
        k = NodeKind.skill) := by
  refine ⟨?_, ?_, rfl, rfl, ?_, ?_⟩
  · intro skills careers s c
    simp [buildGraph, List.mem_product]
  · intro skills careers
    exact List.Nodup.product (List.nodup_dedup _) (List.nodup_dedup _)
  · intro skills
    simp [buildGraph, List.product]
  · intro skills n k hk
    simp [buildGraph] at hk
    obtain ⟨a, _, _, h2⟩ := hk
    exact h2.symm

/-- **C6, witness.** -/
theorem claim_C6_witness :
    ("SQL", "Data Analyst") ∈ (buildGraph ["SQL", "Python"] ["Data Analyst"]).edges :=
  (claim_C6.1 _ _ _ _).mpr ⟨by simp, by simp⟩

/-- Auxiliary to C8: numbering string tips commutes with wrapping the
strings as JSON values. -/
theorem tips_enum_aux (l : List String) (n : Nat) :
    ((l.map JVal.str).enumFrom n).map (fun it => (it.1 + 1, pyStr it.2))
      = (l.enumFrom n).map (fun it => (it.1 + 1, it.2)) := by
  induction l generalizing n with
  | nil => rfl
  | cons a l ih =>
      show (n + 1, a) :: ((l.map JVal.str).enumFrom (n + 1)).map _
          = (n + 1, a) :: (l.enumFrom (n + 1)).map _
      exact congrArg _ (ih (n + 1))

/-- **C8.**  For every received list of tip strings, the rendered tips
preserve the list order and the i-th tip (1-based) is rendered with
number i and its text unchanged. -/
theorem claim_C8 (ts : List String) :
    tipsOf (.obj [("tipsForInternshipsOrHandsOnExperience", .arr (ts.map .str))])
      = .ok (ts.enum.map fun it => (it.1 + 1, it.2)) := by
  cases ts with
  | nil => rfl
  | cons a l =>
      have h1 : tipsOf (.obj [("tipsForInternshipsOrHandsOnExperience",
          .arr ((a :: l).map JVal.str))])
          = .ok ((((a :: l).map JVal.str).enum).map fun it => (it.1 + 1, pyStr it.2)) := rfl
      rw [h1]
      exact congrArg Except.ok (tips_enum_aux (a :: l) 0)

/-- `String.append` acts as list append on the underlying data. -/
theorem strData_append (x y : String) : (x ++ y).data = x.data ++ y.data := rfl

/-- Auxiliary to C9: the cleaning stage on a `json`-tagged fenced
input: the whole fence is removed and the interior newlines remain. -/
theorem cleanText_wrapped (s : String) :
    cleanText ("```json\n" ++ s ++ "\n```") = "\n" ++ s ++ "\n" := by
  have hd : ("```json\n" ++ s ++ "\n```").data
      = backtick :: backtick :: backtick :: 'j' :: 's' :: 'o' :: 'n' :: '\n' ::
        (s.data ++ ['\n', backtick, backtick, backtick]) := by
    rw [strData_append, strData_append,
      show "```json\n".data
        = [backtick, backtick, backtick, 'j', 's', 'o', 'n', '\n'] from rfl,
      show "\n```".data = ['\n', backtick, backtick, backtick] from rfl]
    simp
  have hstrip : pyStripL (backtick :: backtick :: backtick :: 'j' :: 's' :: 'o' :: 'n' :: '\n' ::
      (s.data ++ ['\n', backtick, backtick, backtick]))
      = backtick :: backtick :: backtick :: 'j' :: 's' :: 'o' :: 'n' :: '\n' ::
        (s.data ++ ['\n', backtick, backtick, backtick]) := by
    unfold pyStripL
    rw [List.dropWhile_cons]
    simp only [show isPyWs backtick = false from rfl, Bool.false_eq_true, if_false]
    rw [show (backtick :: backtick :: backtick :: 'j' :: 's' :: 'o' :: 'n' :: '\n' ::
        (s.data ++ ['\n', backtick, backtick, backtick])).reverse
      = backtick :: backtick :: backtick :: '\n' ::
        (s.data.reverse ++ ['\n', 'n', 'o', 's', 'j', backtick, backtick, backtick]) from by
      simp]
    rw [List.dropWhile_cons]
    simp only [show isPyWs backtick = false from rfl, Bool.false_eq_true, if_false]
    simp
  have hlead : stripLeadingFenceL (backtick :: backtick :: backtick :: 'j' :: 's' :: 'o' :: 'n' :: '\n' ::
      (s.data ++ ['\n', backtick, backtick, backtick]))
      = '\n' :: (s.data ++ ['\n', backtick, backtick, backtick]) := rfl
  have htrail : stripTrailingFenceL ('\n' :: (s.data ++ ['\n', backtick, backtick, backtick]))
      = '\n' :: (s.data ++ ['\n']) := by
    unfold stripTrailingFenceL
    rw [show ('\n' :: (s.data ++ ['\n', backtick, backtick, backtick])).reverse
      = backtick :: backtick :: backtick :: ('\n' :: (s.data.reverse ++ ['\n'])) from by
      simp]
    simp
  show String.mk (stripTrailingFenceL (stripLeadingFenceL (pyStripL
      ("```json\n" ++ s ++ "\n```").data))) = "\n" ++ s ++ "\n"
  rw [hd, hstrip, hlead, htrail]
  have hdd : ("\n" ++ s ++ "\n").data = '\n' :: (s.data ++ ['\n']) := by
    rw [strData_append, strData_append]; simp
  calc String.mk ('\n' :: (s.data ++ ['\n']))
      = String.mk (("\n" ++ s ++ "\n").data) := by rw [hdd]
    _ = "\n" ++ s ++ "\n" := rfl

/-- Auxiliary to C9: a plain fence (no `json` tag) followed by a
newline is removed; the lookahead for the optional `json` tag fails on
the newline whatever follows it. -/
theorem stripLead_plain (X : List Char) :
    stripLeadingFenceL (backtick :: backtick :: backtick :: '\n' ::
        (X ++ ['\n', backtick, backtick, backtick]))
      = '\n' :: (X ++ ['\n', backtick, backtick, backtick]) := by
  match X with
  | [] => rfl
  | [x1] => rfl
  | [x1, x2] => rfl
  | x1 :: x2 :: x3 :: Y => rfl

/-- Auxiliary to C9: the cleaning stage on a plainly fenced input. -/
theorem cleanText_wrapped_plain (s : String) :
    cleanText ("```\n" ++ s ++ "\n```") = "\n" ++ s ++ "\n" := by
  have hd : ("```\n" ++ s ++ "\n```").data
      = backtick :: backtick :: backtick :: '\n' ::
        (s.data ++ ['\n', backtick, backtick, backtick]) := by
    rw [strData_append, strData_append,
      show "```\n".data = [backtick, backtick, backtick, '\n'] from rfl,
      show "\n```".data = ['\n', backtick, backtick, backtick] from rfl]
    simp
  have hstrip : pyStripL (backtick :: backtick :: backtick :: '\n' ::
      (s.data ++ ['\n', backtick, backtick, backtick]))
      = backtick :: backtick :: backtick :: '\n' ::
        (s.data ++ ['\n', backtick, backtick, backtick]) := by
    unfold pyStripL
    rw [List.dropWhile_cons]
    simp only [show isPyWs backtick = false from rfl, Bool.false_eq_true, if_false]
    rw [show (backtick :: backtick :: backtick :: '\n' ::
        (s.data ++ ['\n', backtick, backtick, backtick])).reverse
      = backtick :: backtick :: backtick :: '\n' ::
        (s.data.reverse ++ ['\n', backtick, backtick, backtick]) from by
      simp]
    rw [List.dropWhile_cons]
    simp only [show isPyWs backtick = false from rfl, Bool.false_eq_true, if_false]
    simp
  have htrail : stripTrailingFenceL ('\n' :: (s.data ++ ['\n', backtick, backtick, backtick]))
      = '\n' :: (s.data ++ ['\n']) := by
    unfold stripTrailingFenceL
    rw [show ('\n' :: (s.data ++ ['\n', backtick, backtick, backtick])).reverse
      = backtick :: backtick :: backtick :: ('\n' :: (s.data.reverse ++ ['\n'])) from by
      simp]
    simp
  show String.mk (stripTrailingFenceL (stripLeadingFenceL (pyStripL
      ("```\n" ++ s ++ "\n```").data))) = "\n" ++ s ++ "\n"
  rw [hd, hstrip, stripLead_plain, htrail]
  have hdd : ("\n" ++ s ++ "\n").data = '\n' :: (s.data ++ ['\n']) := by
    rw [strData_append, strData_append]; simp
  calc String.mk ('\n' :: (s.data ++ ['\n']))
      = String.mk (("\n" ++ s ++ "\n").data) := by rw [hdd]
    _ = "\n" ++ s ++ "\n" := rfl

/-- **C9.**  The normalisation path itself strips the surrounding
markdown code fence — a leading ``` optionally tagged json and a
trailing ``` — before the empty/sentinel check and JSON parsing: a
fenced input is processed exactly as its unfenced interior, and a
fence-wrapped empty object parses successfully. -/
theorem claim_C9 :
    (∀ s : String,
        career_map_page ("```json\n" ++ s ++ "\n```") = parseStage ("\n" ++ s ++ "\n"))
    ∧ (∀ s : String,
        career_map_page ("```\n" ++ s ++ "\n```") = parseStage ("\n" ++ s ++ "\n"))
    ∧ career_map_page "```json\n\x7b\x7d\n```" = .ok emptyPage := by
  refine ⟨?_, ?_, rfl⟩
  · intro s
    unfold career_map_page
    rw [cleanText_wrapped]
  · intro s
    unfold career_map_page
    rw [cleanText_wrapped_plain]


